import Mathlib

/-!
Shallow embedding of `src/src/auth.js` (class `AceBaseClientAuth`) of the
acebase-client repository.  Each method of the adapter is modelled as a pure
function from the session state, the method's arguments and the outcome of
the single Remote Auth API call it makes, to the resulting session state,
the list of emitted events, the list of API calls performed and the
promise's settlement (resolution value or rejection).
-/

namespace AcebaseClient

mutual

/-- JavaScript values, as far as the adapter inspects them (truthiness and
`typeof` checks, property access on plain objects). -/
inductive JsVal where
  | vNull
  | vUndefined
  | vBool (b : Bool)
  | vNum (n : Int)
  | vStr (s : String)
  | vObj (fields : JsFields)
deriving DecidableEq

/-- The own enumerable properties of a plain JavaScript object, in
insertion order; a JS object cannot hold the same key twice. -/
inductive JsFields where
  | nil
  | cons (k : String) (v : JsVal) (rest : JsFields)
deriving DecidableEq

end

/-- JavaScript `typeof` operator; note `typeof null === "object"`. -/
def jsTypeof : JsVal → String
  | .vNull => "object"
  | .vUndefined => "undefined"
  | .vBool _ => "boolean"
  | .vNum _ => "number"
  | .vStr _ => "string"
  | .vObj _ => "object"

/-- JavaScript truthiness of a value. -/
def jsTruthy : JsVal → Bool
  | .vNull => false
  | .vUndefined => false
  | .vBool b => b
  | .vNum n => n != 0
  | .vStr s => s != ""
  | .vObj _ => true

/-- An in-memory user object is a plain object of profile fields. -/
abbrev UserObj := JsFields

/-- Build an object's field list from a Lean list (notation helper). -/
def JsFields.ofList : List (String × JsVal) → JsFields
  | [] => .nil
  | (k, v) :: rest => .cons k v (JsFields.ofList rest)

/-- `Object.keys(o)`: the keys in insertion order. -/
def JsFields.keys : JsFields → List String
  | .nil => []
  | .cons k _ rest => k :: rest.keys

/-- JavaScript property read `o[k]`: the value of the first entry with key
`k`, or `undefined` when absent. -/
def getField : JsFields → String → JsVal
  | .nil, _ => .vUndefined
  | .cons k v rest, k' => if k = k' then v else getField rest k'

/-- JavaScript property write `o[k] = v`: overwrite the entry with key `k`
in place, or append a new entry when the key is absent. -/
def setField : JsFields → String → JsVal → JsFields
  | .nil, k, v => .cons k v .nil
  | .cons k₀ v₀ rest, k, v =>
    if k₀ = k then .cons k v rest else .cons k₀ v₀ (setField rest k v)

/-- `Object.keys(result.user).forEach(key => this.user[key] = result.user[key])`
(auth.js lines 148-150): assign each field of `src` into `o`, in order. -/
def mergeFields (o : JsFields) : JsFields → JsFields
  | .nil => o
  | .cons k v rest => mergeFields (setField o k v) rest

/-- `this.user.uid`, the identifier property of the session user. -/
def userUid (u : UserObj) : JsVal := getField u "uid"

/-- Modelled from the spec: class `AceBaseUser` lives in the repository's
`src/user.js`, which is not under `src/`; per the spec a User is "a value
object mirroring server-provided profile fields", "constructed fresh from
server data on sign-in", so `new AceBaseUser(profile)` is modelled as the
profile's fields themselves. -/
def AceBaseUser.ofProfile (profile : UserObj) : UserObj := profile

/-- Session state of the adapter: `this.user` and `this.accessToken`
(auth.js lines 14-15), both `null` at construction. -/
structure AuthState where
  user : Option UserObj
  accessToken : Option String
deriving DecidableEq

/-- State set up by the constructor (auth.js lines 14-15). -/
def initialState : AuthState := { user := none, accessToken := none }

/-- An event delivered to `this.eventCallback`: event name, payload `source`
tag, payload `user`, and for sign-in events the payload `accessToken`. -/
structure Event where
  name : String
  source : String
  user : UserObj
  accessToken : Option String
deriving DecidableEq

/-- Opaque error produced by the Remote Auth API; the adapter forwards it
unchanged, never inspecting it. -/
abbrev ApiErr := String

/-- A promise rejection seen by the adapter's caller: either a locally
produced `{ code, message }` object or the API's error passed through. -/
inductive AuthErr where
  | localErr (code message : String)
  | apiErr (e : ApiErr)
deriving DecidableEq

/-- A call made to the Remote Auth API, with the arguments passed. -/
inductive ApiCall where
  | signIn (username password : String)
  | signInWithEmail (email password : String)
  | signInWithToken (accessToken : String)
  | signOut (everywhere : JsVal)
  | changePassword (uid : JsVal) (oldPassword newPassword : String)
  | forgotPassword (email : String)
  | resetPassword (resetCode newPassword : String)
  | updateUserDetails (details : JsVal)
  | signUp (details : UserObj) (signIntoNewAccount : Bool)
  | deleteAccount (uid : JsVal) (signOutCaller : Bool)
deriving DecidableEq

/-- Remote Auth API response for the sign-in variants. -/
structure SignInResp where
  accessToken : String
  user : UserObj
deriving DecidableEq

/-- Remote Auth API response for `changePassword`. -/
structure ChangePasswordResp where
  accessToken : String
deriving DecidableEq

/-- Remote Auth API response for `updateUserDetails`. -/
structure UpdateDetailsResp where
  user : UserObj
deriving DecidableEq

/-- Remote Auth API response for `signUp`. -/
structure SignUpResp where
  accessToken : String
  user : UserObj
deriving DecidableEq

/-- Everything observable about one adapter method invocation: the session
state afterwards, the events emitted (in order), the API calls made
(in order), and the settlement of the returned promise. -/
structure OpResult (α : Type) where
  state : AuthState
  events : List Event
  calls : List ApiCall
  result : Except AuthErr α

/-- Resolution value of the sign-in variants: `{ user, accessToken }`. -/
structure SignInResult where
  user : UserObj
  accessToken : String
deriving DecidableEq

/-- Resolution value of `signUp`: the user, and the access token except on
the admin path (which resolves with `{ user }` only). -/
structure SignUpResult where
  user : UserObj
  accessToken : Option String
deriving DecidableEq

/-- The rejection `{ code: 'not_signed_in', message: 'Not signed in!' }`. -/
def notSignedInErr : AuthErr := .localErr "not_signed_in" "Not signed in!"

/-- `signIn(username, password)` (auth.js lines 24-36): sets `this.user = null`
first, then calls the API; on success stores token and a fresh user, emits
`signin` with source `signin` and resolves `{ user, accessToken }`. -/
def AceBaseClientAuth.signIn (s : AuthState) (username password : String)
    (api : Except ApiErr SignInResp) : OpResult SignInResult :=
  let s₀ : AuthState := { s with user := none }
  match api with
  | .error err =>
    { state := s₀, events := [], calls := [.signIn username password],
      result := .error (.apiErr err) }
  | .ok details =>
    let user := AceBaseUser.ofProfile details.user
    { state := { user := some user, accessToken := some details.accessToken },
      events := [⟨"signin", "signin", user, some details.accessToken⟩],
      calls := [.signIn username password],
      result := .ok ⟨user, details.accessToken⟩ }

/-- `signInWithEmail(email, password)` (auth.js lines 44-56): as `signIn`
but calling the email variant and tagging the event `email_signin`. -/
def AceBaseClientAuth.signInWithEmail (s : AuthState) (email password : String)
    (api : Except ApiErr SignInResp) : OpResult SignInResult :=
  let s₀ : AuthState := { s with user := none }
  match api with
  | .error err =>
    { state := s₀, events := [], calls := [.signInWithEmail email password],
      result := .error (.apiErr err) }
  | .ok details =>
    let user := AceBaseUser.ofProfile details.user
    { state := { user := some user, accessToken := some details.accessToken },
      events := [⟨"signin", "email_signin", user, some details.accessToken⟩],
      calls := [.signInWithEmail email password],
      result := .ok ⟨user, details.accessToken⟩ }

/-- `signInWithToken(accessToken)` (auth.js lines 63-75): as `signIn` but
calling the token variant and tagging the event `token_signin`. -/
def AceBaseClientAuth.signInWithToken (s : AuthState) (accessToken : String)
    (api : Except ApiErr SignInResp) : OpResult SignInResult :=
  let s₀ : AuthState := { s with user := none }
  match api with
  | .error err =>
    { state := s₀, events := [], calls := [.signInWithToken accessToken],
      result := .error (.apiErr err) }
  | .ok details =>
    let user := AceBaseUser.ofProfile details.user
    { state := { user := some user, accessToken := some details.accessToken },
      events := [⟨"signin", "token_signin", user, some details.accessToken⟩],
      calls := [.signInWithToken accessToken],
      result := .ok ⟨user, details.accessToken⟩ }

/-- `signOut(everywhere)` (auth.js lines 82-97). -/
def AceBaseClientAuth.signOut (s : AuthState) (everywhere : JsVal)
    (api : Except ApiErr Unit) : OpResult Unit :=
  match s.user with
  | none => { state := s, events := [], calls := [], result := .error notSignedInErr }
  | some u =>
    match api with
    | .error err =>
      { state := s, events := [], calls := [.signOut everywhere],
        result := .error (.apiErr err) }
    | .ok _ =>
      { state := { user := none, accessToken := none },
        events := [⟨"signout", "signout", u, none⟩],
        calls := [.signOut everywhere], result := .ok () }

/-- `changePassword(oldPassword, newPassword)` (auth.js lines 105-118). -/
def AceBaseClientAuth.changePassword (s : AuthState) (oldPassword newPassword : String)
    (api : Except ApiErr ChangePasswordResp) : OpResult ChangePasswordResp :=
  match s.user with
  | none => { state := s, events := [], calls := [], result := .error notSignedInErr }
  | some u =>
    match api with
    | .error err =>
      { state := s, events := [],
        calls := [.changePassword (userUid u) oldPassword newPassword],
        result := .error (.apiErr err) }
    | .ok r =>
      { state := { s with accessToken := some r.accessToken },
        events := [⟨"signin", "password_change", u, some r.accessToken⟩],
        calls := [.changePassword (userUid u) oldPassword newPassword],
        result := .ok ⟨r.accessToken⟩ }

/-- `forgotPassword(email)` (auth.js lines 125-127): pure pass-through. -/
def AceBaseClientAuth.forgotPassword (s : AuthState) (email : String)
    (api : Except ApiErr Unit) : OpResult Unit :=
  { state := s, events := [], calls := [.forgotPassword email],
    result := match api with | .error err => .error (.apiErr err) | .ok _ => .ok () }

/-- `resetPassword(resetCode, newPassword)` (auth.js lines 135-137). -/
def AceBaseClientAuth.resetPassword (s : AuthState) (resetCode newPassword : String)
    (api : Except ApiErr Unit) : OpResult Unit :=
  { state := s, events := [], calls := [.resetPassword resetCode newPassword],
    result := match api with | .error err => .error (.apiErr err) | .ok _ => .ok () }

/-- `_updateUserDetails(details)` (auth.js lines 139-156): rejects
`not_signed_in` without a user, rejects `invalid_details` when
`typeof details !== 'object'`, otherwise calls the API and on success
assigns every returned field into the existing user object. -/
def AceBaseClientAuth._updateUserDetails (s : AuthState) (details : JsVal)
    (api : Except ApiErr UpdateDetailsResp) : OpResult UserObj :=
  match s.user with
  | none => { state := s, events := [], calls := [], result := .error notSignedInErr }
  | some u =>
    if jsTypeof details ≠ "object" then
      { state := s, events := [], calls := [],
        result := .error (.localErr "invalid_details" "details must be an object") }
    else
      match api with
      | .error err =>
        { state := s, events := [], calls := [.updateUserDetails details],
          result := .error (.apiErr err) }
      | .ok r =>
        let u' := mergeFields u r.user
        { state := { s with user := some u' }, events := [],
          calls := [.updateUserDetails details], result := .ok u' }

/-- `changeUsername(newUsername)` (auth.js lines 163-165). -/
def AceBaseClientAuth.changeUsername (s : AuthState) (newUsername : String)
    (api : Except ApiErr UpdateDetailsResp) : OpResult UserObj :=
  AceBaseClientAuth._updateUserDetails s
    (.vObj (.cons "username" (.vStr newUsername) .nil)) api

/-- `changeEmail(newEmail)` (auth.js lines 172-174). -/
def AceBaseClientAuth.changeEmail (s : AuthState) (newEmail : String)
    (api : Except ApiErr UpdateDetailsResp) : OpResult UserObj :=
  AceBaseClientAuth._updateUserDetails s
    (.vObj (.cons "email" (.vStr newEmail) .nil)) api

/-- `updateUserSettings(settings)` (auth.js lines 181-183). -/
def AceBaseClientAuth.updateUserSettings (s : AuthState) (settings : JsVal)
    (api : Except ApiErr UpdateDetailsResp) : OpResult UserObj :=
  AceBaseClientAuth._updateUserDetails s
    (.vObj (.cons "settings" settings .nil)) api

/-- `const isAdmin = this.user && this.user.uid === 'admin'` (auth.js 203),
as a boolean. -/
def isAdminOf (s : AuthState) : Bool :=
  match s.user with
  | some u => userUid u == .vStr "admin"
  | none => false

/-- `signUp(details)` (auth.js lines 196-223). -/
def AceBaseClientAuth.signUp (s : AuthState) (details : UserObj)
    (api : Except ApiErr SignUpResp) : OpResult SignUpResult :=
  if !jsTruthy (getField details "username") && !jsTruthy (getField details "email") then
    { state := s, events := [], calls := [],
      result := .error (.localErr "invalid_details" "No username or email set") }
  else if !jsTruthy (getField details "password") then
    { state := s, events := [], calls := [],
      result := .error (.localErr "invalid_details" "No password given") }
  else
    let isAdmin := isAdminOf s
    let preSignout : AuthState × List Event :=
      match s.user with
      | some u =>
        if !isAdmin then ({ s with user := none }, [⟨"signout", "signup", u, none⟩])
        else (s, [])
      | none => (s, [])
    let s₁ := preSignout.1
    let preEvents := preSignout.2
    match api with
    | .error err =>
      { state := s₁, events := preEvents, calls := [.signUp details (!isAdmin)],
        result := .error (.apiErr err) }
    | .ok r =>
      if isAdmin then
        { state := s₁, events := preEvents, calls := [.signUp details (!isAdmin)],
          result := .ok ⟨r.user, none⟩ }
      else
        let user := AceBaseUser.ofProfile r.user
        { state := { user := some user, accessToken := some r.accessToken },
          events := preEvents ++ [⟨"signin", "signup", user, some r.accessToken⟩],
          calls := [.signUp details (!isAdmin)],
          result := .ok ⟨user, some r.accessToken⟩ }

/-- `deleteAccount(uid)` (auth.js lines 232-254). -/
def AceBaseClientAuth.deleteAccount (s : AuthState) (uid : JsVal)
    (api : Except ApiErr Unit) : OpResult Unit :=
  match s.user with
  | none => { state := s, events := [], calls := [], result := .error notSignedInErr }
  | some u =>
    if jsTruthy uid && !(userUid u == .vStr "admin") then
      { state := s, events := [], calls := [],
        result := .error (.localErr "not_admin"
          "Cannot remove other accounts than signed into account, unless you are admin") }
    else
      let deleteUid := if jsTruthy uid then uid else userUid u
      if deleteUid == .vStr "admin" then
        { state := s, events := [], calls := [],
          result := .error (.localErr "not_allowed" "Cannot remove admin user") }
      else
        let signOutCaller := !(userUid u == .vStr "admin")
        match api with
        | .error err =>
          { state := s, events := [], calls := [.deleteAccount deleteUid signOutCaller],
            result := .error (.apiErr err) }
        | .ok _ =>
          if signOutCaller then
            { state := { user := none, accessToken := none },
              events := [⟨"signout", "delete_account", u, none⟩],
              calls := [.deleteAccount deleteUid signOutCaller], result := .ok () }
          else
            { state := s, events := [],
              calls := [.deleteAccount deleteUid signOutCaller], result := .ok () }

/-- One adapter method invocation together with the outcome of its Remote
Auth API call (ignored when a local precondition rejects first). -/
inductive OpInvocation where
  | opSignIn (username password : String) (out : Except ApiErr SignInResp)
  | opSignInWithEmail (email password : String) (out : Except ApiErr SignInResp)
  | opSignInWithToken (accessToken : String) (out : Except ApiErr SignInResp)
  | opSignOut (everywhere : JsVal) (out : Except ApiErr Unit)
  | opChangePassword (oldPassword newPassword : String) (out : Except ApiErr ChangePasswordResp)
  | opForgotPassword (email : String) (out : Except ApiErr Unit)
  | opResetPassword (resetCode newPassword : String) (out : Except ApiErr Unit)
  | opUpdateUserDetails (details : JsVal) (out : Except ApiErr UpdateDetailsResp)
  | opChangeUsername (newUsername : String) (out : Except ApiErr UpdateDetailsResp)
  | opChangeEmail (newEmail : String) (out : Except ApiErr UpdateDetailsResp)
  | opUpdateUserSettings (settings : JsVal) (out : Except ApiErr UpdateDetailsResp)
  | opSignUp (details : UserObj) (out : Except ApiErr SignUpResp)
  | opDeleteAccount (uid : JsVal) (out : Except ApiErr Unit)

/-- The session state after running one invocation from state `s`. -/
def stepState (s : AuthState) : OpInvocation → AuthState
  | .opSignIn username password out => (AceBaseClientAuth.signIn s username password out).state
  | .opSignInWithEmail email password out =>
    (AceBaseClientAuth.signInWithEmail s email password out).state
  | .opSignInWithToken accessToken out =>
    (AceBaseClientAuth.signInWithToken s accessToken out).state
  | .opSignOut everywhere out => (AceBaseClientAuth.signOut s everywhere out).state
  | .opChangePassword oldPassword newPassword out =>
    (AceBaseClientAuth.changePassword s oldPassword newPassword out).state
  | .opForgotPassword email out => (AceBaseClientAuth.forgotPassword s email out).state
  | .opResetPassword resetCode newPassword out =>
    (AceBaseClientAuth.resetPassword s resetCode newPassword out).state
  | .opUpdateUserDetails details out =>
    (AceBaseClientAuth._updateUserDetails s details out).state
  | .opChangeUsername newUsername out =>
    (AceBaseClientAuth.changeUsername s newUsername out).state
  | .opChangeEmail newEmail out => (AceBaseClientAuth.changeEmail s newEmail out).state
  | .opUpdateUserSettings settings out =>
    (AceBaseClientAuth.updateUserSettings s settings out).state
  | .opSignUp details out => (AceBaseClientAuth.signUp s details out).state
  | .opDeleteAccount uid out => (AceBaseClientAuth.deleteAccount s uid out).state

/-- The session state after running a sequence of invocations. -/
def runOps (s : AuthState) : List OpInvocation → AuthState
  | [] => s
  | op :: rest => runOps (stepState s op) rest

/-- Whether an asynchronous API outcome is a rejection. -/
def outcomeFailed {α : Type} : Except ApiErr α → Bool
  | .ok _ => false
  | .error _ => true

/-- Whether an invocation's Remote Auth API outcome is a failure. -/
def opFailed : OpInvocation → Bool
  | .opSignIn _ _ out => outcomeFailed out
  | .opSignInWithEmail _ _ out => outcomeFailed out
  | .opSignInWithToken _ out => outcomeFailed out
  | .opSignOut _ out => outcomeFailed out
  | .opChangePassword _ _ out => outcomeFailed out
  | .opForgotPassword _ out => outcomeFailed out
  | .opResetPassword _ _ out => outcomeFailed out
  | .opUpdateUserDetails _ out => outcomeFailed out
  | .opChangeUsername _ out => outcomeFailed out
  | .opChangeEmail _ out => outcomeFailed out
  | .opUpdateUserSettings _ out => outcomeFailed out
  | .opSignUp _ out => outcomeFailed out
  | .opDeleteAccount _ out => outcomeFailed out

/-- The local `invalid_details` precondition of `signUp` (auth.js 197-202)
passes: a truthy username or email, and a truthy password. -/
def signUpDetailsValid (details : UserObj) : Bool :=
  (jsTruthy (getField details "username") || jsTruthy (getField details "email"))
    && jsTruthy (getField details "password")

/-- The session state an operation leaves behind when its API call fails:
unchanged, except that the sign-in variants have already cleared the user
(auth.js lines 25, 45, 64) and `signUp` has already signed a non-admin
current user out (auth.js lines 204-209). -/
def failState (s : AuthState) : OpInvocation → AuthState
  | .opSignIn _ _ _ => { s with user := none }
  | .opSignInWithEmail _ _ _ => { s with user := none }
  | .opSignInWithToken _ _ => { s with user := none }
  | .opSignUp details _ =>
    if signUpDetailsValid details && s.user.isSome && !isAdminOf s then
      { s with user := none }
    else s
  | _ => s

/-- C6: for each of `signIn`, `signInWithEmail` and `signInWithToken`, a
successful API response `{ accessToken, user }` leaves the session holding
exactly that token and a User constructed from that profile, emits exactly
one `signin` event with source `signin` / `email_signin` / `token_signin`
respectively carrying that user and token, and resolves with
`{ user, accessToken }`. -/
theorem signIn_variants_success (s : AuthState) (username password email tok : String)
    (resp : SignInResp) :
    ((AceBaseClientAuth.signIn s username password (.ok resp)).state
        = ⟨some (AceBaseUser.ofProfile resp.user), some resp.accessToken⟩
      ∧ (AceBaseClientAuth.signIn s username password (.ok resp)).events
        = [⟨"signin", "signin", AceBaseUser.ofProfile resp.user, some resp.accessToken⟩]
      ∧ (AceBaseClientAuth.signIn s username password (.ok resp)).result
        = .ok ⟨AceBaseUser.ofProfile resp.user, resp.accessToken⟩)
    ∧ ((AceBaseClientAuth.signInWithEmail s email password (.ok resp)).state
        = ⟨some (AceBaseUser.ofProfile resp.user), some resp.accessToken⟩
      ∧ (AceBaseClientAuth.signInWithEmail s email password (.ok resp)).events
        = [⟨"signin", "email_signin", AceBaseUser.ofProfile resp.user, some resp.accessToken⟩]
      ∧ (AceBaseClientAuth.signInWithEmail s email password (.ok resp)).result
        = .ok ⟨AceBaseUser.ofProfile resp.user, resp.accessToken⟩)
    ∧ ((AceBaseClientAuth.signInWithToken s tok (.ok resp)).state
        = ⟨some (AceBaseUser.ofProfile resp.user), some resp.accessToken⟩
      ∧ (AceBaseClientAuth.signInWithToken s tok (.ok resp)).events
        = [⟨"signin", "token_signin", AceBaseUser.ofProfile resp.user, some resp.accessToken⟩]
      ∧ (AceBaseClientAuth.signInWithToken s tok (.ok resp)).result
        = .ok ⟨AceBaseUser.ofProfile resp.user, resp.accessToken⟩) := by
  refine ⟨⟨rfl, rfl, rfl⟩, ⟨rfl, rfl, rfl⟩, ⟨rfl, rfl, rfl⟩⟩

/-- C7: after a successful `changePassword`, the session's user is the very
same object as before while the access token equals the newly returned one;
the call resolves with the new token and emits a `signin` event with source
`password_change`. -/
theorem changePassword_success (s : AuthState) (u : UserObj)
    (oldPassword newPassword : String) (r : ChangePasswordResp)
    (h : s.user = some u) :
    (AceBaseClientAuth.changePassword s oldPassword newPassword (.ok r)).state.user = some u
    ∧ (AceBaseClientAuth.changePassword s oldPassword newPassword (.ok r)).state.accessToken
        = some r.accessToken
    ∧ (AceBaseClientAuth.changePassword s oldPassword newPassword (.ok r)).result
        = .ok ⟨r.accessToken⟩
    ∧ (AceBaseClientAuth.changePassword s oldPassword newPassword (.ok r)).events
        = [⟨"signin", "password_change", u, some r.accessToken⟩] := by
  obtain ⟨su, st⟩ := s
  cases h
  exact ⟨rfl, rfl, rfl, rfl⟩

/-- Witness for C7 at a concrete signed-in state and response. -/
theorem changePassword_success_witness :
    (AceBaseClientAuth.changePassword
        ⟨some (.cons "uid" (.vStr "u1") .nil), some "t0"⟩ "old" "new" (.ok ⟨"t1"⟩)).state.accessToken
      = some "t1" :=
  (changePassword_success ⟨some (.cons "uid" (.vStr "u1") .nil), some "t0"⟩
    (.cons "uid" (.vStr "u1") .nil) "old" "new" ⟨"t1"⟩ rfl).2.1

/-- C10: with no current user, each of `signOut`, `changePassword`,
`changeUsername`, `changeEmail`, `updateUserSettings` and `deleteAccount`
rejects with code `not_signed_in`, makes no Remote Auth API call, emits no
event and leaves the session state unchanged. -/
theorem not_signed_in_rejections (s : AuthState) (h : s.user = none)
    (everywhere uid settings : JsVal) (oldPassword newPassword newUsername newEmail : String)
    (o₁ : Except ApiErr Unit) (o₂ : Except ApiErr ChangePasswordResp)
    (o₃ : Except ApiErr UpdateDetailsResp) :
    (AceBaseClientAuth.signOut s everywhere o₁
      = ⟨s, [], [], .error notSignedInErr⟩)
    ∧ (AceBaseClientAuth.changePassword s oldPassword newPassword o₂
      = ⟨s, [], [], .error notSignedInErr⟩)
    ∧ (AceBaseClientAuth.changeUsername s newUsername o₃
      = ⟨s, [], [], .error notSignedInErr⟩)
    ∧ (AceBaseClientAuth.changeEmail s newEmail o₃
      = ⟨s, [], [], .error notSignedInErr⟩)
    ∧ (AceBaseClientAuth.updateUserSettings s settings o₃
      = ⟨s, [], [], .error notSignedInErr⟩)
    ∧ (AceBaseClientAuth.deleteAccount s uid o₁
      = ⟨s, [], [], .error notSignedInErr⟩) := by
  obtain ⟨su, st⟩ := s
  cases h
  refine ⟨rfl, rfl, rfl, rfl, rfl, rfl⟩

/-- Witness for C10 at the freshly constructed (empty) session. -/
theorem not_signed_in_rejections_witness :
    AceBaseClientAuth.signOut initialState .vUndefined (.ok ())
      = ⟨initialState, [], [], .error notSignedInErr⟩ :=
  (not_signed_in_rejections initialState rfl .vUndefined .vUndefined .vNull
    "o" "n" "nu" "ne" (.ok ()) (.ok ⟨"t"⟩) (.ok ⟨.nil⟩)).1

/-- C8: counterexample. With a signed-in session and `details = null`, the
detail-update operation does NOT reject with `invalid_details`: since
JavaScript's `typeof null` is `"object"`, the check on auth.js line 143
passes and the Remote Auth API is called with `null`. -/
theorem updateUserDetails_null_cex :
    (AceBaseClientAuth._updateUserDetails
        ⟨some (.cons "uid" (.vStr "u1") .nil), some "t0"⟩ .vNull
        (.ok ⟨.cons "name" (.vStr "n") .nil⟩)).calls = [.updateUserDetails .vNull]
    ∧ (AceBaseClientAuth._updateUserDetails
        ⟨some (.cons "uid" (.vStr "u1") .nil), some "t0"⟩ .vNull
        (.ok ⟨.cons "name" (.vStr "n") .nil⟩)).result
      = .ok (.cons "uid" (.vStr "u1") (.cons "name" (.vStr "n") .nil)) :=
  ⟨rfl, rfl⟩

/-- C8 (amended): for a signed-in session, the detail-update operation
rejects with `invalid_details` without calling the Remote Auth API, without
emitting an event and without touching state, for every argument whose
JavaScript `typeof` is not `"object"` (strings, numbers, booleans,
`undefined`); `null` is excluded because `typeof null === "object"`. -/
theorem updateUserDetails_nonobject_rejected (s : AuthState) (u : UserObj)
    (details : JsVal) (out : Except ApiErr UpdateDetailsResp)
    (h : s.user = some u) (hT : jsTypeof details ≠ "object") :
    AceBaseClientAuth._updateUserDetails s details out
      = ⟨s, [], [], .error (.localErr "invalid_details" "details must be an object")⟩ := by
  obtain ⟨su, st⟩ := s
  cases h
  simp only [AceBaseClientAuth._updateUserDetails, if_pos hT]

/-- Witness for C8's amended theorem at `details = "oops"`. -/
theorem updateUserDetails_nonobject_rejected_witness :
    AceBaseClientAuth._updateUserDetails
        ⟨some (.cons "uid" (.vStr "u1") .nil), some "t0"⟩ (.vStr "oops") (.ok ⟨.nil⟩)
      = ⟨⟨some (.cons "uid" (.vStr "u1") .nil), some "t0"⟩, [], [],
          .error (.localErr "invalid_details" "details must be an object")⟩ :=
  updateUserDetails_nonobject_rejected _ (.cons "uid" (.vStr "u1") .nil)
    (.vStr "oops") (.ok ⟨.nil⟩) rfl (by decide)

/-- Reading a field after a JS property write: the written key now holds the
written value, every other key is unaffected. -/
theorem getField_setField : ∀ (o : JsFields) (k k' : String) (v : JsVal),
    getField (setField o k v) k' = if k = k' then v else getField o k'
  | .nil, k, k', v => by simp [setField, getField]
  | .cons k₀ v₀ rest, k, k', v => by
    by_cases h₀ : k₀ = k
    · subst h₀
      by_cases h₁ : k₀ = k'
      · subst h₁; simp [setField, getField]
      · simp [setField, getField, h₁]
    · by_cases h₁ : k₀ = k'
      · subst h₁
        have hne : ¬ k = k₀ := fun hk => h₀ hk.symm
        simp [setField, getField, h₀, hne]
      · simp [setField, getField, h₀, h₁, getField_setField rest k k' v]

/-- Keys not present in the assigned object are untouched by the merge. -/
theorem getField_mergeFields_not_mem : ∀ (src o : JsFields) (k : String),
    k ∉ src.keys → getField (mergeFields o src) k = getField o k
  | .nil, o, k, _ => rfl
  | .cons k₀ v₀ rest, o, k, h => by
    simp only [JsFields.keys, List.mem_cons, not_or] at h
    rw [mergeFields, getField_mergeFields_not_mem rest _ k h.2, getField_setField,
      if_neg (fun hk => h.1 hk.symm)]

/-- Keys present in the assigned object take exactly the assigned value
after the merge (given the JS-object guarantee of distinct keys). -/
theorem getField_mergeFields_mem : ∀ (src o : JsFields) (k : String),
    src.keys.Nodup → k ∈ src.keys → getField (mergeFields o src) k = getField src k
  | .nil, o, k, _, h => by simp [JsFields.keys] at h
  | .cons k₀ v₀ rest, o, k, hnd, h => by
    simp only [JsFields.keys, List.nodup_cons] at hnd
    by_cases hk : k₀ = k
    · subst hk
      rw [mergeFields, getField_mergeFields_not_mem rest _ _ hnd.1,
        getField_setField, if_pos rfl]
      simp [getField]
    · have hmem : k ∈ rest.keys := by
        simp only [JsFields.keys, List.mem_cons] at h
        rcases h with h | h
        · exact absurd h.symm hk
        · exact h
      rw [mergeFields, getField_mergeFields_mem rest _ k hnd.2 hmem]
      simp [getField, hk]

/-- C9: for a signed-in session and a successful update-details response,
the detail-update operation (the one reached by `changeUsername`,
`changeEmail` and `updateUserSettings`, as the last three conjuncts record)
overwrites in the existing in-memory user exactly the fields present in the
returned user, leaves every other field unchanged, keeps the token, resolves
with the updated user object and emits no event. -/
theorem updateUserDetails_merge (s : AuthState) (u : UserObj) (details settings : JsVal)
    (newUsername newEmail : String) (r : UpdateDetailsResp)
    (out : Except ApiErr UpdateDetailsResp)
    (h : s.user = some u) (hT : jsTypeof details = "object")
    (hnd : r.user.keys.Nodup) :
    (AceBaseClientAuth._updateUserDetails s details (.ok r)).state.user
        = some (mergeFields u r.user)
    ∧ (AceBaseClientAuth._updateUserDetails s details (.ok r)).state.accessToken
        = s.accessToken
    ∧ (AceBaseClientAuth._updateUserDetails s details (.ok r)).result
        = .ok (mergeFields u r.user)
    ∧ (AceBaseClientAuth._updateUserDetails s details (.ok r)).events = []
    ∧ (∀ k, k ∈ r.user.keys → getField (mergeFields u r.user) k = getField r.user k)
    ∧ (∀ k, k ∉ r.user.keys → getField (mergeFields u r.user) k = getField u k)
    ∧ AceBaseClientAuth.changeUsername s newUsername out
        = AceBaseClientAuth._updateUserDetails s
            (.vObj (.cons "username" (.vStr newUsername) .nil)) out
    ∧ AceBaseClientAuth.changeEmail s newEmail out
        = AceBaseClientAuth._updateUserDetails s
            (.vObj (.cons "email" (.vStr newEmail) .nil)) out
    ∧ AceBaseClientAuth.updateUserSettings s settings out
        = AceBaseClientAuth._updateUserDetails s
            (.vObj (.cons "settings" settings .nil)) out := by
  obtain ⟨su, st⟩ := s
  cases h
  refine ⟨?_, ?_, ?_, ?_, ?_, ?_, rfl, rfl, rfl⟩
  · simp [AceBaseClientAuth._updateUserDetails, hT]
  · simp [AceBaseClientAuth._updateUserDetails, hT]
  · simp [AceBaseClientAuth._updateUserDetails, hT]
  · simp [AceBaseClientAuth._updateUserDetails, hT]
  · exact fun k hk => getField_mergeFields_mem r.user u k hnd hk
  · exact fun k hk => getField_mergeFields_not_mem r.user u k hk

/-- Witness for C9: updating `{ name: "n" }` on a user with fields
`uid`, `name` overwrites `name` and keeps `uid`. -/
theorem updateUserDetails_merge_witness :
    (AceBaseClientAuth._updateUserDetails
        ⟨some (.cons "uid" (.vStr "u1") (.cons "name" (.vStr "old") .nil)), some "t0"⟩
        (.vObj .nil) (.ok ⟨.cons "name" (.vStr "new") .nil⟩)).state.user
      = some (mergeFields (.cons "uid" (.vStr "u1") (.cons "name" (.vStr "old") .nil))
          (.cons "name" (.vStr "new") .nil)) :=
  (updateUserDetails_merge
    ⟨some (.cons "uid" (.vStr "u1") (.cons "name" (.vStr "old") .nil)), some "t0"⟩
    (.cons "uid" (.vStr "u1") (.cons "name" (.vStr "old") .nil)) (.vObj .nil) .vNull
    "x" "y" ⟨.cons "name" (.vStr "new") .nil⟩ (.ok ⟨.nil⟩) rfl rfl (by simp [JsFields.keys])).1

/-- C3: for a signed-in session, `deleteAccount(uid)` rejects `not_admin`
when a (truthy) target uid is supplied by a caller whose own uid is not
`admin`; otherwise rejects `not_allowed` when the effective target (the
given uid, or absent that the caller's uid) is `admin`; otherwise calls the
Remote Auth API's `deleteAccount` with that effective target and with the
sign-out-caller flag true exactly when the caller's uid is not `admin`.
Local rejections make no API call. -/
theorem deleteAccount_checks (s : AuthState) (u : UserObj) (uid : JsVal)
    (out : Except ApiErr Unit) (h : s.user = some u) :
    ((jsTruthy uid && !(userUid u == .vStr "admin")) = true →
      AceBaseClientAuth.deleteAccount s uid out
        = ⟨s, [], [], .error (.localErr "not_admin"
            "Cannot remove other accounts than signed into account, unless you are admin")⟩)
    ∧ ((jsTruthy uid && !(userUid u == .vStr "admin")) = false →
      ((if jsTruthy uid then uid else userUid u) == .vStr "admin") = true →
      AceBaseClientAuth.deleteAccount s uid out
        = ⟨s, [], [], .error (.localErr "not_allowed" "Cannot remove admin user")⟩)
    ∧ ((jsTruthy uid && !(userUid u == .vStr "admin")) = false →
      ((if jsTruthy uid then uid else userUid u) == .vStr "admin") = false →
      (AceBaseClientAuth.deleteAccount s uid out).calls
        = [.deleteAccount (if jsTruthy uid then uid else userUid u)
            (!(userUid u == .vStr "admin"))]) := by
  obtain ⟨su, st⟩ := s
  cases h
  refine ⟨fun h₁ => ?_, fun h₁ h₂ => ?_, fun h₁ h₂ => ?_⟩
  · simp only [AceBaseClientAuth.deleteAccount, h₁, if_true]
  · simp only [AceBaseClientAuth.deleteAccount, h₁, h₂, Bool.false_eq_true, if_false, if_true]
  · simp only [AceBaseClientAuth.deleteAccount, h₁, h₂, Bool.false_eq_true, if_false]
    cases out
    · rfl
    · cases hso : (!(userUid u == JsVal.vStr "admin")) <;> simp [hso]

/-- Witness for C3: a non-admin caller supplying another account's uid is
rejected with `not_admin`. -/
theorem deleteAccount_checks_witness :
    AceBaseClientAuth.deleteAccount
        ⟨some (.cons "uid" (.vStr "u1") .nil), some "t0"⟩ (.vStr "u2") (.ok ())
      = ⟨⟨some (.cons "uid" (.vStr "u1") .nil), some "t0"⟩, [], [],
          .error (.localErr "not_admin"
            "Cannot remove other accounts than signed into account, unless you are admin")⟩ :=
  (deleteAccount_checks ⟨some (.cons "uid" (.vStr "u1") .nil), some "t0"⟩
    (.cons "uid" (.vStr "u1") .nil) (.vStr "u2") (.ok ()) rfl).1 (by decide)

/-- C4: for a session signed in as `admin` and valid sign-up details, the
API's sign-up is called with the sign-into-new-account flag `false` (the
flag the adapter derives from the caller being the admin account), and on
success the call resolves with just the newly created user (no access
token), leaving the admin's own session user and token unchanged and
emitting no event. -/
theorem signUp_as_admin (s : AuthState) (u : UserObj) (details : UserObj)
    (resp : SignUpResp) (out : Except ApiErr SignUpResp)
    (h : s.user = some u) (hAdmin : userUid u = .vStr "admin")
    (hValid : signUpDetailsValid details = true) :
    (AceBaseClientAuth.signUp s details out).calls = [.signUp details false]
    ∧ (AceBaseClientAuth.signUp s details (.ok resp)).result = .ok ⟨resp.user, none⟩
    ∧ (AceBaseClientAuth.signUp s details (.ok resp)).state = s
    ∧ (AceBaseClientAuth.signUp s details (.ok resp)).events = [] := by
  obtain ⟨su, st⟩ := s
  cases h
  simp only [signUpDetailsValid, Bool.and_eq_true, Bool.or_eq_true] at hValid
  obtain ⟨hue, hp⟩ := hValid
  have hAdminB : isAdminOf ⟨some u, st⟩ = true := by
    simp [isAdminOf, hAdmin]
  rcases hue with h₁ | h₁ <;>
    (cases out <;> simp [AceBaseClientAuth.signUp, h₁, hp, hAdminB])

/-- Witness for C4 at a concrete admin session. -/
theorem signUp_as_admin_witness :
    (AceBaseClientAuth.signUp
        ⟨some (.cons "uid" (.vStr "admin") .nil), some "tA"⟩
        (.cons "username" (.vStr "bob") (.cons "password" (.vStr "pw") .nil))
        (.ok ⟨"tB", .cons "uid" (.vStr "bob1") .nil⟩)).result
      = .ok ⟨.cons "uid" (.vStr "bob1") .nil, none⟩ :=
  (signUp_as_admin ⟨some (.cons "uid" (.vStr "admin") .nil), some "tA"⟩
    (.cons "uid" (.vStr "admin") .nil)
    (.cons "username" (.vStr "bob") (.cons "password" (.vStr "pw") .nil))
    ⟨"tB", .cons "uid" (.vStr "bob1") .nil⟩
    (.ok ⟨"tB", .cons "uid" (.vStr "bob1") .nil⟩) rfl rfl (by decide)).2.1

/-- C5: `signUp` with valid details while signed in as a non-admin user
first emits a `signout` event with source `signup` carrying the previous
user — before any `signin` event with source `signup` — and this local
sign-out (user cleared, signout emitted) happens whether the API call
succeeds or fails: on failure the session keeps no user. -/
theorem signUp_nonadmin_signs_out_first (s : AuthState) (u : UserObj)
    (details : UserObj) (out : Except ApiErr SignUpResp)
    (h : s.user = some u) (hNotAdmin : (userUid u == .vStr "admin") = false)
    (hValid : signUpDetailsValid details = true) :
    (AceBaseClientAuth.signUp s details out).events
      = ⟨"signout", "signup", u, none⟩ ::
        (match out with
         | .error _ => []
         | .ok r => [⟨"signin", "signup", AceBaseUser.ofProfile r.user,
                      some r.accessToken⟩])
    ∧ (∀ e, out = .error e →
        AceBaseClientAuth.signUp s details out
          = ⟨{ s with user := none }, [⟨"signout", "signup", u, none⟩],
              [.signUp details true], .error (.apiErr e)⟩) := by
  obtain ⟨su, st⟩ := s
  cases h
  simp only [signUpDetailsValid, Bool.and_eq_true, Bool.or_eq_true] at hValid
  obtain ⟨hue, hp⟩ := hValid
  have hAdminB : isAdminOf ⟨some u, st⟩ = false := by
    simp [isAdminOf, hNotAdmin]
  rcases hue with h₁ | h₁ <;>
    (cases out <;> simp [AceBaseClientAuth.signUp, h₁, hp, hAdminB])

/-- Witness for C5: failing sign-up still signs the non-admin user out. -/
theorem signUp_nonadmin_signs_out_first_witness :
    AceBaseClientAuth.signUp
        ⟨some (.cons "uid" (.vStr "u1") .nil), some "t0"⟩
        (.cons "username" (.vStr "a") (.cons "password" (.vStr "x") .nil))
        (.error "server down")
      = ⟨⟨none, some "t0"⟩,
          [⟨"signout", "signup", .cons "uid" (.vStr "u1") .nil, none⟩],
          [.signUp (.cons "username" (.vStr "a") (.cons "password" (.vStr "x") .nil)) true],
          .error (.apiErr "server down")⟩ :=
  (signUp_nonadmin_signs_out_first ⟨some (.cons "uid" (.vStr "u1") .nil), some "t0"⟩
    (.cons "uid" (.vStr "u1") .nil)
    (.cons "username" (.vStr "a") (.cons "password" (.vStr "x") .nil))
    (.error "server down") rfl (by decide) (by decide)).2 "server down" rfl

/-- A failed `deleteAccount` API call leaves the session state untouched,
as do its local precondition rejections. -/
theorem deleteAccount_error_state (s : AuthState) (uid : JsVal) (e : ApiErr) :
    (AceBaseClientAuth.deleteAccount s uid (.error e)).state = s := by
  obtain ⟨su, st⟩ := s
  rcases su with _ | u
  · rfl
  · cases h₁ : (jsTruthy uid && !(userUid u == JsVal.vStr "admin"))
    · cases h₂ : ((if jsTruthy uid then uid else userUid u) == JsVal.vStr "admin") <;>
        simp [AceBaseClientAuth.deleteAccount, h₁, h₂]
    · simp [AceBaseClientAuth.deleteAccount, h₁]

/-- A successful `deleteAccount` either clears the whole session or leaves
it untouched (and local rejections leave it untouched). -/
theorem deleteAccount_ok_state (s : AuthState) (uid : JsVal) (v : Unit) :
    (AceBaseClientAuth.deleteAccount s uid (.ok v)).state = s
    ∨ (AceBaseClientAuth.deleteAccount s uid (.ok v)).state = ⟨none, none⟩ := by
  obtain ⟨su, st⟩ := s
  rcases su with _ | u
  · exact Or.inl rfl
  · cases h₀ : jsTruthy uid <;> cases hadm : (userUid u == JsVal.vStr "admin")
    · exact Or.inr (by simp [AceBaseClientAuth.deleteAccount, h₀, hadm])
    · exact Or.inl (by simp [AceBaseClientAuth.deleteAccount, h₀, hadm])
    · exact Or.inl (by simp [AceBaseClientAuth.deleteAccount, h₀, hadm])
    · cases h₂ : (uid == JsVal.vStr "admin")
      · exact Or.inl (by simp [AceBaseClientAuth.deleteAccount, h₀, hadm, h₂])
      · exact Or.inl (by simp [AceBaseClientAuth.deleteAccount, h₀, hadm, h₂])

/-- C1: counterexample. From a signed-in session, a `signIn` whose API call
fails does NOT leave the session state it held before the call: `this.user`
was set to `null` before the API call (auth.js line 25) and stays cleared,
while the old token survives. -/
theorem signIn_failure_mutates_state_cex :
    (AceBaseClientAuth.signIn
        ⟨some (.cons "uid" (.vStr "u1") .nil), some "t0"⟩ "a" "b" (.error "bad")).state
      ≠ ⟨some (.cons "uid" (.vStr "u1") .nil), some "t0"⟩ := by
  decide

/-- C1 (amended): when an operation's API call (or local precondition
check) fails, the session state equals the prior state except for the
pre-call mutations the adapter performs deliberately: the sign-in variants
clear the user before calling the API (the token is retained), and `signUp`
locally signs out a signed-in non-admin user before calling the API; these
pre-call mutations persist on failure, and no other mutation happens before
a successful response. -/
theorem failed_call_state_characterization (s : AuthState) (op : OpInvocation)
    (h : opFailed op = true) : stepState s op = failState s op := by
  obtain ⟨su, st⟩ := s
  cases op with
  | opSignIn username password out =>
    cases out with
    | error e => rfl
    | ok v => simp [opFailed, outcomeFailed] at h
  | opSignInWithEmail email password out =>
    cases out with
    | error e => rfl
    | ok v => simp [opFailed, outcomeFailed] at h
  | opSignInWithToken accessToken out =>
    cases out with
    | error e => rfl
    | ok v => simp [opFailed, outcomeFailed] at h
  | opSignOut everywhere out =>
    cases out with
    | error e => rcases su with _ | u <;> rfl
    | ok v => simp [opFailed, outcomeFailed] at h
  | opChangePassword oldPassword newPassword out =>
    cases out with
    | error e => rcases su with _ | u <;> rfl
    | ok v => simp [opFailed, outcomeFailed] at h
  | opForgotPassword email out => rfl
  | opResetPassword resetCode newPassword out => rfl
  | opUpdateUserDetails details out =>
    cases out with
    | error e =>
      rcases su with _ | u
      · rfl
      · by_cases ht : jsTypeof details ≠ "object" <;>
          simp [stepState, AceBaseClientAuth._updateUserDetails, failState, ht]
    | ok v => simp [opFailed, outcomeFailed] at h
  | opChangeUsername newUsername out =>
    cases out with
    | error e => rcases su with _ | u <;> rfl
    | ok v => simp [opFailed, outcomeFailed] at h
  | opChangeEmail newEmail out =>
    cases out with
    | error e => rcases su with _ | u <;> rfl
    | ok v => simp [opFailed, outcomeFailed] at h
  | opUpdateUserSettings settings out =>
    cases out with
    | error e => rcases su with _ | u <;> rfl
    | ok v => simp [opFailed, outcomeFailed] at h
  | opSignUp details out =>
    cases out with
    | error e =>
      rcases su with _ | u
      · cases ha : jsTruthy (getField details "username") <;>
        cases hb : jsTruthy (getField details "email") <;>
        cases hc : jsTruthy (getField details "password") <;>
        simp [stepState, AceBaseClientAuth.signUp, failState, signUpDetailsValid,
          ha, hb, hc, isAdminOf]
      · cases hadm : (userUid u == JsVal.vStr "admin") <;>
        cases ha : jsTruthy (getField details "username") <;>
        cases hb : jsTruthy (getField details "email") <;>
        cases hc : jsTruthy (getField details "password") <;>
        simp [stepState, AceBaseClientAuth.signUp, failState, signUpDetailsValid,
          ha, hb, hc, hadm, isAdminOf]
    | ok v => simp [opFailed, outcomeFailed] at h
  | opDeleteAccount uid out =>
    cases out with
    | error e => exact deleteAccount_error_state ⟨su, st⟩ uid e
    | ok v => simp [opFailed, outcomeFailed] at h

/-- Witness for C1's amended theorem: a failing `signOut` from the empty
session leaves the state exactly as characterized. -/
theorem failed_call_state_characterization_witness :
    stepState initialState (.opSignOut .vUndefined (.error "e"))
      = failState initialState (.opSignOut .vUndefined (.error "e")) :=
  failed_call_state_characterization initialState
    (.opSignOut .vUndefined (.error "e")) rfl

/-- C2: counterexample. The state reached from the empty session by a
successful `signIn` followed by a failed `signIn` holds an access token but
no user (no password change involved), refuting "user and token are both
present or both absent". -/
theorem token_without_user_reachable_cex :
    runOps initialState
        [.opSignIn "a" "b" (.ok ⟨"t1", .cons "uid" (.vStr "u1") .nil⟩),
         .opSignIn "a" "c" (.error "bad")]
      = ⟨none, some "t1"⟩ := by
  decide

/-- One step preserves "a user implies a token" in the session state. -/
theorem stepState_user_implies_token (s : AuthState) (op : OpInvocation)
    (h : s.user.isSome = true → s.accessToken.isSome = true) :
    (stepState s op).user.isSome = true → (stepState s op).accessToken.isSome = true := by
  obtain ⟨su, st⟩ := s
  cases op with
  | opSignIn username password out =>
    cases out with
    | error e => simp [stepState, AceBaseClientAuth.signIn]
    | ok v => simp [stepState, AceBaseClientAuth.signIn]
  | opSignInWithEmail email password out =>
    cases out with
    | error e => simp [stepState, AceBaseClientAuth.signInWithEmail]
    | ok v => simp [stepState, AceBaseClientAuth.signInWithEmail]
  | opSignInWithToken accessToken out =>
    cases out with
    | error e => simp [stepState, AceBaseClientAuth.signInWithToken]
    | ok v => simp [stepState, AceBaseClientAuth.signInWithToken]
  | opSignOut everywhere out =>
    rcases su with _ | u <;> cases out <;>
      simp_all [stepState, AceBaseClientAuth.signOut]
  | opChangePassword oldPassword newPassword out =>
    rcases su with _ | u <;> cases out <;>
      simp_all [stepState, AceBaseClientAuth.changePassword]
  | opForgotPassword email out => exact h
  | opResetPassword resetCode newPassword out => exact h
  | opUpdateUserDetails details out =>
    rcases su with _ | u
    · exact h
    · by_cases ht : jsTypeof details ≠ "object" <;> cases out <;>
        simp_all [stepState, AceBaseClientAuth._updateUserDetails, ht]
  | opChangeUsername newUsername out =>
    rcases su with _ | u <;> cases out <;>
      simp_all [stepState, AceBaseClientAuth.changeUsername,
        AceBaseClientAuth._updateUserDetails, jsTypeof]
  | opChangeEmail newEmail out =>
    rcases su with _ | u <;> cases out <;>
      simp_all [stepState, AceBaseClientAuth.changeEmail,
        AceBaseClientAuth._updateUserDetails, jsTypeof]
  | opUpdateUserSettings settings out =>
    rcases su with _ | u <;> cases out <;>
      simp_all [stepState, AceBaseClientAuth.updateUserSettings,
        AceBaseClientAuth._updateUserDetails, jsTypeof]
  | opSignUp details out =>
    rcases su with _ | u
    · cases out <;>
      cases ha : jsTruthy (getField details "username") <;>
      cases hb : jsTruthy (getField details "email") <;>
      cases hc : jsTruthy (getField details "password") <;>
      simp_all [stepState, AceBaseClientAuth.signUp, isAdminOf]
    · cases out <;>
      cases hadm : (userUid u == JsVal.vStr "admin") <;>
      cases ha : jsTruthy (getField details "username") <;>
      cases hb : jsTruthy (getField details "email") <;>
      cases hc : jsTruthy (getField details "password") <;>
      simp_all [stepState, AceBaseClientAuth.signUp, isAdminOf]
  | opDeleteAccount uid out =>
    cases out with
    | error e =>
      show ((AceBaseClientAuth.deleteAccount ⟨su, st⟩ uid (.error e)).state).user.isSome = true →
        ((AceBaseClientAuth.deleteAccount ⟨su, st⟩ uid (.error e)).state).accessToken.isSome = true
      rw [deleteAccount_error_state ⟨su, st⟩ uid e]
      exact h
    | ok v =>
      show ((AceBaseClientAuth.deleteAccount ⟨su, st⟩ uid (.ok v)).state).user.isSome = true →
        ((AceBaseClientAuth.deleteAccount ⟨su, st⟩ uid (.ok v)).state).accessToken.isSome = true
      rcases deleteAccount_ok_state ⟨su, st⟩ uid v with hs | hs <;> rw [hs]
      · exact h
      · simp

/-- C2 (amended): in every state reachable from the initial empty session
by any sequence of adapter operations (including ones whose API call
fails), a present user implies a present access token.  The converse
direction of the claimed invariant fails (see the counterexample): a token
may remain while no user is held, after a sign-in variant or a non-admin
`signUp` whose API call failed. -/
theorem reachable_user_implies_token (ops : List OpInvocation) :
    (runOps initialState ops).user.isSome = true →
    (runOps initialState ops).accessToken.isSome = true := by
  have main : ∀ (l : List OpInvocation) (s : AuthState),
      (s.user.isSome = true → s.accessToken.isSome = true) →
      (runOps s l).user.isSome = true → (runOps s l).accessToken.isSome = true := by
    intro l
    induction l with
    | nil => intro s hs; exact hs
    | cons op rest ih =>
      intro s hs
      exact ih (stepState s op) (stepState_user_implies_token s op hs)
  exact main ops initialState (by simp [initialState])

/-- Witness for C2's amended theorem after one successful sign-in. -/
theorem reachable_user_implies_token_witness :
    (runOps initialState
        [.opSignIn "a" "b" (.ok ⟨"t1", .cons "uid" (.vStr "u1") .nil⟩)]).accessToken.isSome
      = true :=
  reachable_user_implies_token
    [.opSignIn "a" "b" (.ok ⟨"t1", .cons "uid" (.vStr "u1") .nil⟩)] rfl

end AcebaseClient
